import Mathlib

set_option maxRecDepth 8000

/-! Verification development for the journalist feed generator.

The definitions below are a shallow embedding of the program's data model
and operations: src/utils.rs, src/main.rs, src/sources/pile.rs and
src/sources/hf.rs.  Timestamps (chrono DateTime of Utc) are embedded as
natural numbers ordered as instants; fallible Rust functions returning
anyhow Result are embedded as Except.  File contents are embedded as the
full text a read would produce, or an I/O error. -/

/-- From src/utils.rs, union_strings: the Rust function builds two std
HashSets from its arguments and collects their union into a vector.
HashSet::union iterates the larger set in full and then the smaller set's
difference from it (never interleaving them), and the iteration order of
each hash set is not a function of its contents (hash maps are randomly
seeded per instance).  This predicate holds exactly for the lists the Rust
function can return: when the set of a has at least as many elements as
the set of b, some ordering of the distinct elements of a followed by some
ordering of the elements of b missing from a; symmetrically otherwise. -/
def union_strings_output (a b out : List String) : Prop :=
  (a.dedup.length ≥ b.dedup.length ∧
    (out.take a.dedup.length).Perm a.dedup ∧
    (out.drop a.dedup.length).Perm
      (b.dedup.filter (fun s => !a.dedup.contains s))) ∨
  (a.dedup.length < b.dedup.length ∧
    (out.take b.dedup.length).Perm b.dedup ∧
    (out.drop b.dedup.length).Perm
      (a.dedup.filter (fun s => !b.dedup.contains s)))

instance instDecPermString : ∀ (l₁ l₂ : List String), Decidable (List.Perm l₁ l₂) :=
  fun _ _ => decidable_of_iff _ List.isPerm_iff

instance instDecUnionStringsOutput (a b out : List String) :
    Decidable (union_strings_output a b out) := by
  unfold union_strings_output
  infer_instance

/-- Canonical representative for union_strings, used where downstream code
needs one concrete list.  Only order-insensitive (set level) facts about it
are stated in the theorems below, since the real output order is the random
hash-set order. -/
def union_strings (a b : List String) : List String :=
  (a ++ b).dedup

/-- From src/main.rs, struct NewsAuthor. -/
structure NewsAuthor where
  name : String
  email : String
  uri : String
deriving DecidableEq, Repr

/-- From src/main.rs, struct NewsItem.  published and updated are chrono
DateTime instants, embedded as Nat. -/
structure NewsItem where
  id : String
  link : String
  title : String
  summary : Option String
  published : Nat
  updated : Nat
  authors : List NewsAuthor
  categories : List String
deriving DecidableEq, Repr

/-- From src/main.rs, impl Add for NewsItem (fn add, lines 92-120): the
merge of two items.  Fails when the ids differ; otherwise id, link, title,
summary-precedence, published and authors come from the left operand,
updated is the later of the two, and categories is the hash-set union. -/
def addNewsItem (a b : NewsItem) : Except String NewsItem :=
  if a.id ≠ b.id then
    Except.error "different IDs"
  else
    Except.ok
      { id := a.id
        link := a.link
        title := a.title
        summary :=
          match a.summary, b.summary with
          | some s, some o => some (s ++ "\n-----\n" ++ o)
          | some s, none => some s
          | none, o => o
        published := a.published
        updated := max a.updated b.updated
        authors := a.authors
        categories := union_strings a.categories b.categories }

/-- Concrete item used to instantiate merge theorems. -/
def itemA : NewsItem :=
  { id := "id-a", link := "https://a.example", title := "A"
    summary := some "sa", published := 10, updated := 20
    authors := [], categories := ["x", "y"] }

/-- Concrete item with an id different from itemA. -/
def itemB : NewsItem :=
  { id := "id-b", link := "https://b.example", title := "B"
    summary := some "sb", published := 11, updated := 21
    authors := [], categories := ["y", "z"] }

/-- Concrete item used to instantiate the self-merge theorem. -/
def itemC : NewsItem :=
  { id := "id-c", link := "https://c.example", title := "C"
    summary := none, published := 5, updated := 7
    authors := [{ name := "n", email := "e", uri := "u" }]
    categories := ["p", "q"] }

/-- C3: merge fails exactly on distinct ids; on success id, link, title,
authors and published come from the first operand, updated is the later of
the two, summary is the dashed concatenation / single present one / absent,
and categories is the duplicate-free union of the two category sets. -/
theorem c3_merge_contract (a b : NewsItem) :
    (a.id ≠ b.id → (addNewsItem a b).toOption = none) ∧
    (a.id = b.id → ∃ m, addNewsItem a b = Except.ok m ∧
      m.id = a.id ∧ m.link = a.link ∧ m.title = a.title ∧
      m.authors = a.authors ∧ m.published = a.published ∧
      m.updated = max a.updated b.updated ∧
      m.summary = (match a.summary, b.summary with
        | some s, some o => some (s ++ "\n-----\n" ++ o)
        | some s, none => some s
        | none, o => o) ∧
      m.categories.Nodup ∧
      (∀ s, s ∈ m.categories ↔ s ∈ a.categories ∨ s ∈ b.categories)) := by
  constructor
  · intro h
    unfold addNewsItem
    rw [if_pos h]
    rfl
  · intro h
    refine ⟨{ id := a.id, link := a.link, title := a.title,
              summary := match a.summary, b.summary with
                | some s, some o => some (s ++ "\n-----\n" ++ o)
                | some s, none => some s
                | none, o => o,
              published := a.published, updated := max a.updated b.updated,
              authors := a.authors,
              categories := union_strings a.categories b.categories },
            ?_, rfl, rfl, rfl, rfl, rfl, rfl, rfl, ?_, ?_⟩
    · unfold addNewsItem
      rw [if_neg (by simp [h])]
    · exact List.nodup_dedup _
    · intro s
      simp [union_strings, List.mem_dedup]

/-- Witness for c3_merge_contract: itemA and itemB have different ids, so
their merge fails. -/
theorem c3_merge_contract_witness : (addNewsItem itemA itemB).toOption = none :=
  (c3_merge_contract itemA itemB).1 (by decide)

/-- C9: self-merge succeeds and agrees with the operand on published, id,
link, title and authors; updated is idempotent, and the categories are the
operand's categories as a set. -/
theorem c9_self_merge (a : NewsItem) :
    ∃ m, addNewsItem a a = Except.ok m ∧
      m.published = a.published ∧ m.id = a.id ∧ m.link = a.link ∧
      m.title = a.title ∧ m.authors = a.authors ∧
      m.updated = a.updated ∧
      (∀ s, s ∈ m.categories ↔ s ∈ a.categories) := by
  refine ⟨{ id := a.id, link := a.link, title := a.title,
            summary := match a.summary, a.summary with
              | some s, some o => some (s ++ "\n-----\n" ++ o)
              | some s, none => some s
              | none, o => o,
            published := a.published, updated := max a.updated a.updated,
            authors := a.authors,
            categories := union_strings a.categories a.categories },
          ?_, rfl, rfl, rfl, rfl, rfl, ?_, ?_⟩
  · unfold addNewsItem
    rw [if_neg (by simp)]
  · exact max_self _
  · intro s
    simp [union_strings, List.mem_dedup]

/-- Witness for c9_self_merge at the concrete item itemC. -/
theorem c9_self_merge_witness :
    ∃ m, addNewsItem itemC itemC = Except.ok m ∧
      m.published = itemC.published ∧ m.id = itemC.id ∧ m.link = itemC.link ∧
      m.title = itemC.title ∧ m.authors = itemC.authors ∧
      m.updated = itemC.updated ∧
      (∀ s, s ∈ m.categories ↔ s ∈ itemC.categories) :=
  c9_self_merge itemC

/-- C5 counterexample: merging two items with equal ids and categories
x, y and z can yield the category sequence x, y, z on one evaluation and
y, x, z on another (both orderings of the larger set's iteration are
possible hash-set union outputs), so the rendered category sequence is
not deterministic across runs. -/
theorem c5_counterexample :
    union_strings_output itemA.categories ["z"] ["x", "y", "z"] ∧
    union_strings_output itemA.categories ["z"] ["y", "x", "z"] ∧
    (["x", "y", "z"] : List String) ≠ ["y", "x", "z"] := by
  refine ⟨by decide, by decide, by decide⟩

/-- Splitting a list at a length and permuting the parts permutes the
whole. -/
theorem perm_of_take_drop (x d out : List String)
    (h1 : (out.take x.length).Perm x) (h2 : (out.drop x.length).Perm d) :
    out.Perm (x ++ d) := by
  conv_lhs => rw [← List.take_append_drop x.length out]
  exact h1.append h2

/-- The chained hash-set union enumeration is a permutation of the
canonical deduplicated concatenation. -/
theorem dedup_chain_perm (u v : List String) :
    (u.dedup ++ v.dedup.filter (fun s => !u.dedup.contains s)).Perm
      ((u ++ v).dedup) := by
  have hn : (u.dedup ++ v.dedup.filter (fun s => !u.dedup.contains s)).Nodup := by
    refine List.Nodup.append (List.nodup_dedup u)
      ((List.nodup_dedup v).filter _) ?_
    intro x hxu hxf
    have hx := (List.mem_filter.mp hxf).2
    simp at hx
    exact hx (List.mem_dedup.mp hxu)
  rw [List.perm_ext_iff_of_nodup hn (List.nodup_dedup _)]
  intro s
  simp [List.mem_filter, List.mem_dedup, List.mem_append]
  tauto

/-- Every possible union_strings output is a permutation of the canonical
representative. -/
theorem union_output_perm_canonical (a b out : List String)
    (h : union_strings_output a b out) : out.Perm (union_strings a b) := by
  rcases h with ⟨_, h1, h2⟩ | ⟨_, h1, h2⟩
  · exact (perm_of_take_drop _ _ _ h1 h2).trans (dedup_chain_perm a b)
  · exact (perm_of_take_drop _ _ _ h1 h2).trans
      ((dedup_chain_perm b a).trans List.perm_append_comm.dedup)

/-- C5 amended: any possible categories output is duplicate-free and has
exactly the elements of the two inputs, and any two possible outputs agree
as sets (they are permutations of one another); only the order is left
undetermined by the inputs. -/
theorem c5_amended_set_deterministic (a b out₁ out₂ : List String)
    (h₁ : union_strings_output a b out₁) (h₂ : union_strings_output a b out₂) :
    out₁.Nodup ∧ (∀ s, s ∈ out₁ ↔ s ∈ a ∨ s ∈ b) ∧ List.Perm out₁ out₂ := by
  have p₁ := union_output_perm_canonical a b out₁ h₁
  have p₂ := union_output_perm_canonical a b out₂ h₂
  refine ⟨p₁.symm.nodup (List.nodup_dedup _), ?_, p₁.trans p₂.symm⟩
  intro s
  rw [p₁.mem_iff]
  simp [union_strings, List.mem_dedup]

/-- Witness for c5_amended_set_deterministic on two concrete possible
outputs of the same union. -/
theorem c5_amended_set_deterministic_witness :
    List.Perm (["x", "y", "z"] : List String) ["y", "x", "z"] :=
  (c5_amended_set_deterministic itemA.categories ["z"] ["x", "y", "z"] ["y", "x", "z"]
    (by decide) (by decide)).2.2

/-! ## src/sources/pile.rs: the note parser and the bookmark sources -/

/-- Models the whitespace character class of the header regexes. -/
def isWs (c : Char) : Bool := c.isWhitespace

/-- Splitting a character list on every occurrence of a separator; the
character-level meaning of Rust str::split with a one-character pattern.
The result is never empty and the pieces do not contain the separator. -/
def splitOnChar (sep : Char) : List Char → List (List Char)
  | [] => [[]]
  | c :: cs =>
    match splitOnChar sep cs with
    | r :: rs => if c == sep then [] :: r :: rs else (c :: r) :: rs
    | [] => if c == sep then [[], []] else [[c]]

/-- Character-level string-starts-with. -/
def strStartsWith (s pat : String) : Bool :=
  pat.data.isPrefixOf s.data

/-- Character-level string-ends-with. -/
def strEndsWith (s suf : String) : Bool :=
  suf.data.reverse.isPrefixOf s.data.reverse

/-- Whitespace trimming at both ends, the meaning of str::trim. -/
def trimChars (l : List Char) : List Char :=
  ((l.dropWhile isWs).reverse.dropWhile isWs).reverse

/-- Models one of the four anchored case-insensitive header regexes of
pile.rs (ID_REGEX, REF_REGEX, TAGS_REGEX, TITLE_REGEX): each is a literal
pattern at the start of the line, followed by optional whitespace and a
capture of the rest of the line.  Returns the capture when the line
matches. -/
def matchHeaderValue (pat line : String) : Option String :=
  if pat.data.isPrefixOf (line.data.map Char.toLower) then
    some (String.mk ((line.data.drop pat.data.length).dropWhile isWs))
  else
    none

/-- Tag parsing in OrgNode::from_file (lines 52-57): split the captured
value on commas and trim each piece. -/
def parseTags (s : String) : List String :=
  (splitOnChar (Char.ofNat 44) s.data).map (fun t => String.mk (trimChars t))

/-- The mutable state of the line loop in OrgNode::from_file. -/
structure ParserState where
  id : Option String
  ref_ : Option String
  tags : List String
  title : Option String
  header_done : Bool
  content : String
deriving DecidableEq, Repr

/-- The loop state before the first line. -/
def initState : ParserState :=
  { id := none, ref_ := none, tags := [], title := none,
    header_done := false, content := "" }

/-- The append at the end of the loop body (lines 73-76): the line is
pushed onto the content buffer, newline-terminated, exactly when
header_done is set. -/
def appendIfBody (st : ParserState) (line : String) : ParserState :=
  if st.header_done then { st with content := st.content ++ line ++ "\n" } else st

/-- One iteration of the line loop of OrgNode::from_file (lines 39-77):
the line is matched against the four header patterns in order; the title
branch sets header_done and continues (skipping the append); every other
branch, matching or not, falls through to the conditional body append. -/
def processLine (st : ParserState) (line : String) : ParserState :=
  match matchHeaderValue ":id:" line with
  | some v => appendIfBody { st with id := some v } line
  | none =>
    match matchHeaderValue ":roam_refs:" line with
    | some v => appendIfBody { st with ref_ := some v } line
    | none =>
      match matchHeaderValue "#+tags:" line with
      | some v => appendIfBody { st with tags := parseTags v } line
      | none =>
        match matchHeaderValue "#+title:" line with
        | some v => { st with title := some v, header_done := true }
        | none => appendIfBody st line

/-- Rust str::lines: split on the newline character, dropping the final
empty piece and a trailing carriage return on each line. -/
def rustLines (s : String) : List String :=
  let parts := splitOnChar (Char.ofNat 10) s.data
  let parts := if parts.getLast? = some [] then parts.dropLast else parts
  parts.map (fun l =>
    String.mk (if l.getLast? = some (Char.ofNat 13) then l.dropLast else l))

/-- Digit-string value, used for the timestamp fields. -/
def digitsVal (l : List Char) : Nat :=
  l.foldl (fun n c => n * 10 + (c.toNat - 48)) 0

/-- chrono scan::number(s, min, max): consume ascii digits greedily, up to
max of them, stopping at the first non-digit; fail when fewer than min
digits were consumed.  Returns the value and the rest of the input. -/
def scanNumber (minD maxD : Nat) (l : List Char) : Option (Nat × List Char) :=
  let ds := (l.take maxD).takeWhile Char.isDigit
  if ds.length < minD then none
  else some (digitsVal ds, l.drop ds.length)

/-- A fixed-width numeric item of a chrono parse: chrono trims leading
whitespace before every numeric item, then consumes between one and width
digits. -/
def parseField (width : Nat) (l : List Char) : Option (Nat × List Char) :=
  scanNumber 1 width (l.dropWhile isWs)

/-- The chrono year item of %Y: leading whitespace trimmed; an explicit
plus or minus sign lifts the four-digit width limit; without a sign, one
to four digits. -/
def parseYearField (l : List Char) : Option (Int × List Char) :=
  let l := l.dropWhile isWs
  match l with
  | [] => none
  | c :: rest =>
    if c = Char.ofNat 43 then
      (scanNumber 1 rest.length rest).map (fun p => ((p.1 : Int), p.2))
    else if c = Char.ofNat 45 then
      (scanNumber 1 rest.length rest).map (fun p => (-(p.1 : Int), p.2))
    else
      (scanNumber 1 4 l).map (fun p => ((p.1 : Int), p.2))

/-- Proleptic Gregorian leap year, over Int years as chrono has them. -/
def isLeapYear (y : Int) : Bool :=
  (y % 4 == 0 && y % 100 != 0) || y % 400 == 0

def daysInMonth (y : Int) (m : Nat) : Nat :=
  if m = 2 then (if isLeapYear y then 29 else 28)
  else if m = 4 ∨ m = 6 ∨ m = 9 ∨ m = 11 then 30
  else 31

/-- chrono Parsed::to_naive_datetime validation: the year inside the
NaiveDate range, a real calendar day, hour below 24, minute below 60, and
second up to 60 (value 60 is chrono's leap-second representation). -/
def validFields (y : Int) (mo d h mi se : Nat) : Bool :=
  decide (-262144 ≤ y) && decide (y ≤ 262143) &&
  decide (1 ≤ mo) && decide (mo ≤ 12) && decide (1 ≤ d) &&
  decide (d ≤ daysInMonth y mo) && decide (h < 24) &&
  decide (mi < 60) && decide (se ≤ 60)

/-- chrono NaiveDateTime::parse_from_str with format %Y%m%d%H%M%S: the six
numeric items in sequence, each lenient as above (so 13-digit inputs,
whitespace-padded fields and second 60 all parse), the whole input
consumed, then field validation.  The result is an injective encoding of
the parsed fields, standing for the local date-time. -/
def chronoParseYmdHms (l : List Char) : Option Nat :=
  match parseYearField l with
  | none => none
  | some (y, r1) =>
  match parseField 2 r1 with
  | none => none
  | some (mo, r2) =>
  match parseField 2 r2 with
  | none => none
  | some (d, r3) =>
  match parseField 2 r3 with
  | none => none
  | some (h, r4) =>
  match parseField 2 r4 with
  | none => none
  | some (mi, r5) =>
  match parseField 2 r5 with
  | none => none
  | some (se, r6) =>
    if r6.isEmpty && validFields y mo d h mi se then
      some ((y + 262144).toNat * 10000000000 + mo * 100000000 + d * 1000000 +
            h * 10000 + mi * 100 + se)
    else none

/-- Rust Path::file_name for the paths fed to read_datetime: the last
nonempty slash-separated component. -/
def fileName (p : String) : String :=
  String.mk ((splitOnChar (Char.ofNat 47) p.data).foldl
    (fun acc s => if s.isEmpty then acc else s) p.data)

/-- pile.rs read_datetime (lines 209-229): split the file name at the
first dash and parse the leading segment with chrono's %Y%m%d%H%M%S as a
local timestamp in the hard-coded Asia/Kolkata timezone.  The conversion
of the parsed local time to a UTC instant is strictly monotone and is
abstracted away: the embedding keeps the encoded local fields as the
instant. -/
def read_datetime (name : String) : Except String Nat :=
  match splitOnChar (Char.ofNat 45) name.data with
  | first :: _ :: _ =>
    match chronoParseYmdHms first with
    | some v => Except.ok v
    | none => Except.error "input contains invalid characters"
  | _ => Except.error ("Error in parsing file: " ++ name)

/-- The file-name shape on which read_datetime succeeds: a dash separator
exists and chrono's lenient %Y%m%d%H%M%S parse accepts the leading
segment. -/
def validFileName (name : String) : Bool :=
  match splitOnChar (Char.ofNat 45) name.data with
  | first :: _ :: _ => (chronoParseYmdHms first).isSome
  | _ => false

/-- pile.rs struct OrgNode. -/
structure OrgNode where
  id : String
  ref_ : Option String
  title : String
  tags : List String
  created : Nat
  content : Option String
deriving DecidableEq, Repr

/-- OrgNode::from_file (lines 29-95) applied to the text read from the
file: fold the line loop over the lines, trim the content, then require
both title and id; the creation timestamp comes from read_datetime on the
file name, and its failure propagates out of the parse. -/
def OrgNode.from_text (path : String) (text : String) : Except String OrgNode :=
  let final := (rustLines text).foldl processLine initState
  let trimmed := trimChars final.content.data
  match final.title, final.id with
  | some t, some i =>
    (match read_datetime (fileName path) with
     | Except.ok dt =>
       Except.ok { id := i, ref_ := final.ref_, title := t, tags := final.tags,
                   created := dt,
                   content := if trimmed.isEmpty then none
                              else some (String.mk trimmed) }
     | Except.error e => Except.error e)
  | _, _ => Except.error "Parsing error"

/-- pile.rs struct Bookmark. -/
structure Bookmark where
  id : String
  ref_ : String
  title : String
  tags : List String
  created : Nat
  content : Option String
deriving DecidableEq, Repr

/-- Bookmark::from_org_node (lines 109-122): a node without a reference is
not a bookmark. -/
def Bookmark.from_org_node (node : OrgNode) : Except String Bookmark :=
  match node.ref_ with
  | some r =>
    Except.ok { id := node.id, ref_ := r, title := node.title,
                tags := node.tags, created := node.created,
                content := node.content }
  | none => Except.error "Reference not found in node."

/-- Bookmark::is_unread (lines 124-126): the tag list contains unsorted. -/
def Bookmark.is_unread (b : Bookmark) : Bool :=
  b.tags.contains "unsorted"

/-- Bookmark::is_project (lines 128-134): the tag list contains project,
or the reference starts with the GitHub literal. -/
def Bookmark.is_project (b : Bookmark) : Bool :=
  if b.tags.contains "project" then true
  else strStartsWith b.ref_ "https://github.com"

/-- Bookmark::is_recommended (lines 136-138): tagged recommend and not
unread. -/
def Bookmark.is_recommended (b : Bookmark) : Bool :=
  b.tags.contains "recommend" && !b.is_unread

/-- impl ToNewsItem for Bookmark in pile.rs (lines 141-156); main.rs
carries a copy of this conversion with the same published, updated and
authors fields. -/
def Bookmark.to_newsitem (b : Bookmark) : NewsItem :=
  { id := b.id, link := b.ref_, title := b.title, summary := b.content,
    published := b.created, updated := b.created,
    authors := [], categories := b.tags }

/-- src/sources/hf.rs struct Paper. -/
structure Paper where
  id : String
  title : String
  link : String
  description : String
  tags : List String
  arxiv : Option String
  added : Nat
  votes : Nat
  n_comments : Nat
deriving DecidableEq, Repr

/-- impl ToNewsItem for Paper in hf.rs (lines 28-41); the copy in main.rs
differs only in always wrapping the description in Some, with the same
published, updated and authors fields. -/
def Paper.to_newsitem (p : Paper) : NewsItem :=
  { id := p.id, link := p.link, title := p.title,
    summary := if p.description = "" then none else some p.description,
    published := p.added, updated := p.added,
    authors := [], categories := p.tags }

/-- A directory or file store: file paths paired with the outcome of
reading them, the full contents or an I/O failure. -/
abbrev FS := List (String × Except Unit String)

/-- Reading a path from the store. -/
def fsRead (fs : FS) (path : String) : Except Unit String :=
  match fs.find? (fun e => e.1 == path) with
  | some e => e.2
  | none => Except.error ()

/-- read_bookmark_from_file (lines 158-161) on one directory entry: an
unreadable file is an error (the fs read_to_string at line 35 fails);
otherwise parse the node and normalize it to a bookmark. -/
def read_bookmark_from_entry (e : String × Except Unit String) : Except String Bookmark :=
  match e.2 with
  | Except.error _ => Except.error "IoError"
  | Except.ok text => (OrgNode.from_text e.1 text).bind Bookmark.from_org_node

/-- Rust Path::extension compared with the literal org, as in
read_bookmarks_from_dir. -/
def hasOrgExt (name : String) : Bool :=
  strEndsWith name ".org" && name != ".org"

/-- One iteration of the directory scan loop (lines 235-244): org files
whose bookmark parse succeeds are pushed; everything else is passed over. -/
def dirStep (out : List Bookmark) (e : String × Except Unit String) : List Bookmark :=
  if hasOrgExt e.1 then
    match read_bookmark_from_entry e with
    | Except.ok bm => out ++ [bm]
    | Except.error _ => out
  else out

/-- read_bookmarks_from_dir (lines 232-247): scan the directory entries in
order, keeping the bookmarks of the org files that read and parse. -/
def read_bookmarks_from_dir (dir : FS) : List Bookmark :=
  dir.foldl dirStep []

/-- read_tags (lines 165-181): the first matching tags line of the file,
when the file opens; an unopenable file yields the empty list. -/
def firstTagsLine : List String → Option (List String)
  | [] => none
  | l :: ls =>
    match matchHeaderValue "#+tags:" l with
    | some v => some (parseTags v)
    | none => firstTagsLine ls

/-- read_tags on the file store. -/
def read_tags (fs : FS) (path : String) : List String :=
  match fsRead fs path with
  | Except.ok text => (firstTagsLine (rustLines text)).getD []
  | Except.error _ => []

/-- The line loop of read_content (lines 188-203): skip leading lines that
are empty or start with hash or colon after trimming; from the first other
line on, keep every line newline-terminated. -/
def contentLines : Bool → List String → String
  | _, [] => ""
  | true, l :: ls => l ++ "\n" ++ contentLines true ls
  | false, l :: ls =>
    let t := String.mk (trimChars l.data)
    if strStartsWith t "#" || strStartsWith t ":" || t.data.isEmpty then
      contentLines false ls
    else l ++ "\n" ++ contentLines true ls

/-- read_content (lines 183-206). -/
def read_content (fs : FS) (path : String) : Except Unit String :=
  match fsRead fs path with
  | Except.error e => Except.error e
  | Except.ok text => Except.ok (contentLines false (rustLines text))

/-- A row of the org-roam database query in read_bookmarks. -/
structure DbRow where
  id : String
  file : String
  title : String
  ref : String
deriving DecidableEq, Repr

/-- read_bookmarks (lines 250-279): every row yields a bookmark; the
creation time falls back to the current instant when read_datetime fails
(unwrap_or at line 273), and tags and content are re-read from the row's
file. -/
def read_bookmarks (fs : FS) (rows : List DbRow) (now : Nat) : List Bookmark :=
  rows.map (fun row =>
    { id := row.id, ref_ := row.ref, title := row.title,
      tags := read_tags fs row.file,
      created := (read_datetime (fileName row.file)).toOption.getD now,
      content := (read_content fs row.file).toOption })

/-! ## Classification and conversion claims -/

/-- An unsorted bookmark that is also tagged recommend. -/
def bmUnsorted : Bookmark :=
  { id := "b", ref_ := "https://e.com", title := "t",
    tags := ["recommend", "unsorted"], created := 0, content := none }

/-- An untagged bookmark whose reference is on GitHub. -/
def bmGithub : Bookmark :=
  { id := "g", ref_ := "https://github.com/x/y", title := "t",
    tags := [], created := 0, content := none }

/-- An untagged bookmark with a non-GitHub reference. -/
def bmPlain : Bookmark :=
  { id := "p", ref_ := "https://example.com", title := "t",
    tags := [], created := 0, content := none }

/-- A project-tagged bookmark with a non-GitHub reference. -/
def bmTagged : Bookmark :=
  { id := "q", ref_ := "https://example.com", title := "t",
    tags := ["project"], created := 0, content := none }

/-- C7: is_recommended holds exactly when the tags contain recommend and
the bookmark is not in the unsorted pile; consequently it is false
whenever the bookmark is unsorted. -/
theorem c7_is_recommended (b : Bookmark) :
    (b.is_recommended = true ↔
      (b.tags.contains "recommend" = true ∧ b.is_unread = false)) ∧
    (b.is_unread = true → b.is_recommended = false) := by
  constructor
  · simp [Bookmark.is_recommended]
  · intro h
    simp [Bookmark.is_recommended, h]

/-- Witness for c7_is_recommended: an unsorted bookmark tagged recommend is
not recommended. -/
theorem c7_is_recommended_witness : bmUnsorted.is_recommended = false :=
  (c7_is_recommended bmUnsorted).2 (by decide)

/-- C8: is_project holds exactly when the tags contain project or the
reference starts with the GitHub literal; with the three concrete
instances of the claim. -/
theorem c8_is_project (b : Bookmark) :
    (b.is_project = true ↔
      (b.tags.contains "project" = true ∨
       strStartsWith b.ref_ "https://github.com" = true)) ∧
    bmGithub.is_project = true ∧
    bmPlain.is_project = false ∧
    bmTagged.is_project = true := by
  refine ⟨?_, by decide, by decide, by decide⟩
  by_cases h : b.tags.contains "project" <;> simp [Bookmark.is_project, h]

/-- Witness for c8_is_project at the GitHub-referenced bookmark. -/
theorem c8_is_project_witness : bmGithub.is_project = true :=
  (c8_is_project bmGithub).2.1

/-- C10: every NewsItem produced from a Bookmark or from a Paper has equal
published and updated fields, both the source record's creation or added
time, and an empty authors sequence. -/
theorem c10_conversion_invariants :
    (∀ b : Bookmark, b.to_newsitem.published = b.to_newsitem.updated ∧
      b.to_newsitem.published = b.created ∧ b.to_newsitem.authors = []) ∧
    (∀ p : Paper, p.to_newsitem.published = p.to_newsitem.updated ∧
      p.to_newsitem.published = p.added ∧ p.to_newsitem.authors = []) :=
  ⟨fun _ => ⟨rfl, rfl, rfl⟩, fun _ => ⟨rfl, rfl, rfl⟩⟩

/-! ## The parser after the title line (C1) -/

/-- C1 counterexample: in a note whose body contains a line matching the
id pattern, that line is still header-matched after the title and
overwrites the already-captured id (the parse yields id b, not the header
id a), so the body phase does not stop header matching. -/
theorem c1_counterexample :
    (OrgNode.from_text "20230101120000-x.org"
        ":ID: a\n#+TITLE: t\n:ID: b").toOption =
      some { id := "b", ref_ := none, title := "t", tags := [],
             created := 2641670101120000, content := some ":ID: b" } ∧
    ("b" : String) ≠ "a" := by
  exact ⟨by decide, by decide⟩

/-- C1 amended: after the title has been matched (header_done set), each
line is still matched against the four header patterns: a line matching
none of them is appended verbatim newline-joined; lines matching the id,
reference or tags patterns update that field and are also appended; a line
matching the title pattern updates the title and is not appended. -/
theorem c1_amended_body_phase (st : ParserState) (line : String)
    (h : st.header_done = true) :
    (matchHeaderValue ":id:" line = none →
     matchHeaderValue ":roam_refs:" line = none →
     matchHeaderValue "#+tags:" line = none →
     matchHeaderValue "#+title:" line = none →
       processLine st line = { st with content := st.content ++ line ++ "\n" }) ∧
    (∀ v, matchHeaderValue ":id:" line = some v →
       processLine st line =
         { st with id := some v, content := st.content ++ line ++ "\n" }) ∧
    (∀ v, matchHeaderValue ":id:" line = none →
          matchHeaderValue ":roam_refs:" line = some v →
       processLine st line =
         { st with ref_ := some v, content := st.content ++ line ++ "\n" }) ∧
    (∀ v, matchHeaderValue ":id:" line = none →
          matchHeaderValue ":roam_refs:" line = none →
          matchHeaderValue "#+tags:" line = some v →
       processLine st line =
         { st with tags := parseTags v, content := st.content ++ line ++ "\n" }) ∧
    (∀ v, matchHeaderValue ":id:" line = none →
          matchHeaderValue ":roam_refs:" line = none →
          matchHeaderValue "#+tags:" line = none →
          matchHeaderValue "#+title:" line = some v →
       processLine st line = { st with title := some v, header_done := true }) := by
  refine ⟨?_, ?_, ?_, ?_, ?_⟩
  · intro h1 h2 h3 h4
    unfold processLine
    rw [h1, h2, h3, h4]
    simp [appendIfBody, h]
  · intro v h1
    unfold processLine
    rw [h1]
    simp [appendIfBody, h]
  · intro v h1 h2
    unfold processLine
    rw [h1, h2]
    simp [appendIfBody, h]
  · intro v h1 h2 h3
    unfold processLine
    rw [h1, h2, h3]
    simp [appendIfBody, h]
  · intro v h1 h2 h3 h4
    unfold processLine
    rw [h1, h2, h3, h4]

/-- A loop state in the body phase, for instantiating the amended C1. -/
def st0 : ParserState :=
  { id := some "a", ref_ := none, tags := [], title := some "t",
    header_done := true, content := "c\n" }

/-- Witness for c1_amended_body_phase: a concrete body-phase step on an
id-matching line. -/
theorem c1_amended_body_phase_witness :
    processLine st0 ":ID: b" =
      { st0 with id := some "b", content := st0.content ++ ":ID: b" ++ "\n" } :=
  (c1_amended_body_phase st0 ":ID: b" rfl).2.1 "b" (by decide)

/-! ## Timestamp failure handling (C2) and unreadable files (C4) -/

/-- A parse whose file name has no usable timestamp fails as a whole: the
read_datetime error propagates out of OrgNode::from_file. -/
theorem from_text_fails_of_bad_datetime (path text : String)
    (h : (read_datetime (fileName path)).toOption = none) :
    (OrgNode.from_text path text).toOption = none := by
  simp only [OrgNode.from_text]
  split
  · cases hrd : read_datetime (fileName path) with
    | ok dt => rw [hrd] at h; simp [Except.toOption] at h
    | error e => rfl
  · rfl

/-- Dropping a directory entry on which the scan step is a no-op does not
change the scan's result. -/
theorem foldl_skip_entry (dir₁ dir₂ : FS) (e : String × Except Unit String)
    (he : ∀ out, dirStep out e = out) :
    read_bookmarks_from_dir (dir₁ ++ e :: dir₂) =
      read_bookmarks_from_dir (dir₁ ++ dir₂) := by
  unfold read_bookmarks_from_dir
  rw [List.foldl_append, List.foldl_append, List.foldl_cons, he]

/-- C2 counterexample: a note file named without a timestamp, whose
contents otherwise parse fine, yields no bookmark at all through the
directory reader: OrgNode::from_file propagates the read_datetime failure
instead of substituting the current instant, so this caller is not
non-fatal and the note yields no feed item. -/
theorem c2_counterexample :
    (read_datetime (fileName "foo.org")).toOption = none ∧
    read_bookmarks_from_dir
      [("foo.org", Except.ok ":ID: x\n:ROAM_REFS: https://x.test\n#+TITLE: t")] = [] := by
  exact ⟨by decide, by decide⟩

/-- C2 amended: read_datetime fails exactly when the file name has no dash
separator or chrono's lenient %Y%m%d%H%M%S parse rejects the leading
segment (leniency demonstrated on concrete names: a 13-digit segment and a
second-60 segment parse; a month-13 segment and a dashless name fail); the
database-backed reader treats the failure as non-fatal and substitutes the
current instant, but the note-file parser propagates it, so the directory
reader drops such a note entirely instead of substituting. -/
theorem c2_amended_fallback :
    (∀ name, (read_datetime name).toOption.isSome = validFileName name) ∧
    ((read_datetime "20230101120000-x.org").toOption.isSome = true ∧
     (read_datetime "2023010112000-x.org").toOption.isSome = true ∧
     (read_datetime "20230101235960-x.org").toOption.isSome = true ∧
     (read_datetime "20231301120000-x.org").toOption.isSome = false ∧
     (read_datetime "nodash.org").toOption.isSome = false) ∧
    (∀ fs row now, (read_datetime (fileName row.file)).toOption = none →
       (read_bookmarks fs [row] now).map Bookmark.created = [now]) ∧
    (∀ path text, (read_datetime (fileName path)).toOption = none →
       (OrgNode.from_text path text).toOption = none) ∧
    (∀ pre post name text, (read_datetime (fileName name)).toOption = none →
       read_bookmarks_from_dir (pre ++ (name, Except.ok text) :: post) =
         read_bookmarks_from_dir (pre ++ post)) := by
  refine ⟨?_, by decide, ?_, ?_, ?_⟩
  · intro name
    unfold read_datetime validFileName
    cases hs : splitOnChar (Char.ofNat 45) name.data with
    | nil => simp [hs, Except.toOption]
    | cons a t =>
      cases t with
      | nil => simp [hs, Except.toOption]
      | cons b t2 =>
        cases hc : chronoParseYmdHms a <;> simp [hs, hc, Except.toOption]
  · intro fs row now h
    simp [read_bookmarks, h]
  · exact from_text_fails_of_bad_datetime
  · intro pre post name text h
    apply foldl_skip_entry
    intro out
    have hf := from_text_fails_of_bad_datetime name text h
    cases hft : OrgNode.from_text name text with
    | ok node => rw [hft] at hf; simp [Except.toOption] at hf
    | error e =>
      by_cases hx : hasOrgExt name <;>
        simp [dirStep, hx, read_bookmark_from_entry, hft, Except.bind]

/-- Database row whose file name carries no timestamp. -/
def rowFoo : DbRow :=
  { id := "r", file := "foo.org", title := "t", ref := "https://x.test" }

/-- Witness for c2_amended_fallback: the database reader gives the row
with the bad file name the substituted instant 77. -/
theorem c2_amended_fallback_witness :
    (read_bookmarks [] [rowFoo] 77).map Bookmark.created = [77] :=
  c2_amended_fallback.2.2.1 [] rowFoo 77 (by decide)

/-- C4 counterexample: a directory scan containing an unreadable org file
silently skips it and continues: the result equals the scan without that
file, and the remaining readable note still yields its bookmark, so the
run is not aborted. -/
theorem c4_counterexample :
    read_bookmarks_from_dir
      [("bad.org", Except.error ()),
       ("20230101120000-a.org",
        Except.ok ":ID: y\n:ROAM_REFS: https://e.com\n#+TITLE: u")] =
    read_bookmarks_from_dir
      [("20230101120000-a.org",
        Except.ok ":ID: y\n:ROAM_REFS: https://e.com\n#+TITLE: u")] ∧
    (read_bookmarks_from_dir
      [("20230101120000-a.org",
        Except.ok ":ID: y\n:ROAM_REFS: https://e.com\n#+TITLE: u")]).length = 1 := by
  exact ⟨by decide, by decide⟩

/-- C4 amended: an unreadable file inside the directory is treated like a
parse failure: the scan silently skips it and continues with the remaining
entries, for any position of the unreadable file; only a failure to
enumerate the directory itself aborts. -/
theorem c4_amended_io_skipped (pre post : FS) (name : String) :
    read_bookmarks_from_dir (pre ++ (name, Except.error ()) :: post) =
      read_bookmarks_from_dir (pre ++ post) := by
  apply foldl_skip_entry
  intro out
  by_cases hx : hasOrgExt name <;> simp [dirStep, hx, read_bookmark_from_entry]

/-! ## src/main.rs: entry rendering and escaping (C6)

The ToXmlString impl for NewsItem (lines 175-209) renders a fixed Tera
template whose placeholders receive the item fields, after encode_minimal
has been applied to title and summary (lines 198 and 202).  The template
name has no html or xml extension, so Tera autoescaping is off and the
only escaping is encode_minimal.  The whitespace-trimming template tags
join the elements with a newline and two spaces, which the definitions
below reproduce by direct concatenation.  A summary element is emitted
only when the summary is present and nonempty (the Tera if treats null and
the empty string as falsy).  The chrono timestamp serialization is
abstracted as decimal rendering of the instant; no claim concerns the
timestamp text. -/

/-- The five characters escaped by htmlescape encode_minimal, by code
point: double quote, ampersand, apostrophe, less-than, greater-than. -/
def quotChar : Char := Char.ofNat 34

def ampChar : Char := Char.ofNat 38

def aposChar : Char := Char.ofNat 39

def ltChar : Char := Char.ofNat 60

def gtChar : Char := Char.ofNat 62

/-- htmlescape encode_minimal on one character: the named or numeric
entity for the five XML-unsafe characters, the character itself
otherwise. -/
def encodeMinimalChar (c : Char) : List Char :=
  if c = quotChar then ['&', 'q', 'u', 'o', 't', ';']
  else if c = ampChar then ['&', 'a', 'm', 'p', ';']
  else if c = aposChar then ['&', '#', 'x', '2', '7', ';']
  else if c = ltChar then ['&', 'l', 't', ';']
  else if c = gtChar then ['&', 'g', 't', ';']
  else [c]

/-- encode_minimal over a character list. -/
def encodeChars : List Char → List Char
  | [] => []
  | c :: cs => encodeMinimalChar c ++ encodeChars cs

/-- htmlescape encode_minimal, applied by the renderer to title and
summary before template insertion. -/
def encode_minimal (s : String) : String :=
  String.mk (encodeChars s.data)

/-- No raw ampersand: every ampersand in the list begins one of the five
entities emitted by encode_minimal. -/
def ampOk : List Char → Bool
  | [] => true
  | c :: cs =>
    (if c = ampChar then
      ['q', 'u', 'o', 't', ';'].isPrefixOf cs ||
      ['a', 'm', 'p', ';'].isPrefixOf cs ||
      ['#', 'x', '2', '7', ';'].isPrefixOf cs ||
      ['l', 't', ';'].isPrefixOf cs ||
      ['g', 't', ';'].isPrefixOf cs
     else true) && ampOk cs

/-- XML-safety of escaped text: no raw less-than, greater-than or double
quote anywhere, and no raw ampersand. -/
def xmlSafe (s : String) : Bool :=
  s.data.all (fun c => c != ltChar && c != gtChar && c != quotChar) && ampOk s.data

/-- Escaped text never contains a raw angle bracket or double quote. -/
theorem encodeChars_all_safe (l : List Char) :
    (encodeChars l).all (fun c => c != ltChar && c != gtChar && c != quotChar) = true := by
  induction l with
  | nil => rfl
  | cons c cs ih =>
    show ((encodeMinimalChar c ++ encodeChars cs).all
      (fun c => c != ltChar && c != gtChar && c != quotChar)) = true
    unfold encodeMinimalChar
    split_ifs with h1 h2 h3 h4 h5
    · exact ih
    · exact ih
    · exact ih
    · exact ih
    · exact ih
    · simp only [List.cons_append, List.nil_append, List.all_cons, ih, Bool.and_true]
      simp [bne_iff_ne, h1, h4, h5]

/-- Every ampersand in escaped text begins an entity. -/
theorem ampOk_encodeChars (l : List Char) : ampOk (encodeChars l) = true := by
  induction l with
  | nil => rfl
  | cons c cs ih =>
    show ampOk (encodeMinimalChar c ++ encodeChars cs) = true
    unfold encodeMinimalChar
    split_ifs with h1 h2 h3 h4 h5
    · simp [ampOk, List.isPrefixOf, ampChar, ih]
    · simp [ampOk, List.isPrefixOf, ampChar, ih]
    · simp [ampOk, List.isPrefixOf, ampChar, ih]
    · simp [ampOk, List.isPrefixOf, ampChar, ih]
    · simp [ampOk, List.isPrefixOf, ampChar, ih]
    · simp [ampOk, h2, ih]

/-- encode_minimal output is XML-safe. -/
theorem xmlSafe_encode_minimal (t : String) : xmlSafe (encode_minimal t) = true := by
  show ((encodeChars t.data).all (fun c => c != ltChar && c != gtChar && c != quotChar)
    && ampOk (encodeChars t.data)) = true
  rw [encodeChars_all_safe, ampOk_encodeChars]
  rfl

/-- Abstraction of the chrono timestamp text in the rendered entry. -/
def renderInstant (t : Nat) : String := toString t

/-- impl ToXmlString for NewsAuthor (main.rs lines 162-173). -/
def NewsAuthor.to_xml_string (a : NewsAuthor) : String :=
  "<author>\n  <name>" ++ a.name ++ "</name>\n  <email>" ++ a.email ++
  "</email>\n  <uri>" ++ a.uri ++ "</uri>\n</author>"

/-- The escaped title element of the entry template. -/
def titleElem (item : NewsItem) : String :=
  "<title>" ++ encode_minimal item.title ++ "</title>"

/-- The link, id, updated and published elements of the entry template;
the link and id placeholders are inserted unescaped, as in the source. -/
def entryMeta (item : NewsItem) : String :=
  "\n  <link href=\"" ++ item.link ++ "\" />\n  <id>urn:uuid:" ++ item.id ++
  "</id>\n  <updated>" ++ renderInstant item.updated ++
  "</updated>\n  <published>" ++ renderInstant item.published ++ "</published>"

/-- The escaped summary element. -/
def summaryElem (s : String) : String :=
  "<summary type=\"text\">" ++ encode_minimal s ++ "</summary>"

/-- The conditional summary block of the template: emitted only when the
summary is present and nonempty. -/
def summaryPart (item : NewsItem) : String :=
  match item.summary with
  | some s => if s = "" then "" else "\n  " ++ summaryElem s
  | none => ""

/-- The category elements, one per category in sequence order. -/
def categoriesPart (item : NewsItem) : String :=
  String.join (item.categories.map
    (fun c => "\n  <category term=\"" ++ c ++ "\" />"))

/-- The author blocks. -/
def authorsPart (item : NewsItem) : String :=
  String.join (item.authors.map (fun a => "\n  " ++ a.to_xml_string))

/-- impl ToXmlString for NewsItem (main.rs lines 175-209): the rendered
entry, with encode_minimal applied to title and summary. -/
def NewsItem.to_xml_string (item : NewsItem) : String :=
  "<entry>\n  " ++ titleElem item ++ entryMeta item ++ summaryPart item ++
  categoriesPart item ++ authorsPart item ++ "\n</entry>"

/-- C6: the rendered entry inserts the title and the summary only through
encode_minimal; escaped text contains no raw angle bracket, double quote
or ampersand; and the concrete summary of the claim escapes to exactly the
expected entity string. -/
theorem c6_escaped_rendering (item : NewsItem) (s : String)
    (h : item.summary = some s) (hne : s ≠ "") :
    (∃ p q, item.to_xml_string =
      p ++ ("<title>" ++ encode_minimal item.title ++ "</title>") ++ q) ∧
    (∃ p q, item.to_xml_string =
      p ++ ("<summary type=\"text\">" ++ encode_minimal s ++ "</summary>") ++ q) ∧
    xmlSafe (encode_minimal s) = true ∧
    encode_minimal "<script>&\"</script>" = "&lt;script&gt;&amp;&quot;&lt;/script&gt;" := by
  refine ⟨?_, ?_, xmlSafe_encode_minimal s, by decide⟩
  · refine ⟨"<entry>\n  ",
      entryMeta item ++ summaryPart item ++ categoriesPart item ++
        authorsPart item ++ "\n</entry>", ?_⟩
    simp [NewsItem.to_xml_string, titleElem, String.append_assoc]
  · refine ⟨"<entry>\n  " ++ titleElem item ++ entryMeta item ++ "\n  ",
      categoriesPart item ++ authorsPart item ++ "\n</entry>", ?_⟩
    simp [NewsItem.to_xml_string, summaryPart, h, hne, summaryElem,
      String.append_assoc]

/-- The concrete item of the C6 claim instance. -/
def itemW : NewsItem :=
  { id := "w", link := "https://w.example", title := "T",
    summary := some "<script>&\"</script>",
    published := 1, updated := 2, authors := [], categories := [] }

/-- Witness for c6_escaped_rendering at the claim's concrete summary. -/
theorem c6_escaped_rendering_witness :
    xmlSafe (encode_minimal "<script>&\"</script>") = true :=
  (c6_escaped_rendering itemW "<script>&\"</script>" rfl (by decide)).2.2.1
